import Mathlib

/-
  Shallow embedding of the Picomimi CPU auto power governor
  (src/PicomimiGovernor.h, src/PicomimiGovernor.cpp, v2.3).

  Modelling conventions:
  * Machine integers (uint32_t / uint64_t timestamps and microsecond
    counters) are modelled as Nat.  The hardware clocks are monotonic, so
    the unsigned subtractions `now - previous` in the source never wrap;
    Nat truncated subtraction coincides with them on monotone inputs.
  * float quantities (loads, temperature, thresholds) are modelled as Rat.
  * The hardware actuator set_sys_clock_khz may fail; its success is an
    explicit Bool input (clk_ok).  vreg_set_voltage, busy_wait_us, delay,
    __wfi and the serial console printing have no effect on governor state
    and are omitted.  The temperature ADC reading is an explicit Nat input.
  * The serial command console (_handleSerial) only dispatches to the
    public API (setProfile / setAuto / ...); runs are modelled with no
    pending console input, and the API calls are modelled directly.
  * The frequency/voltage table pointers set up by _setupTables are a pure
    function of the selected chip; before begin() the source leaves them
    NULL (dereferencing them there is undefined behaviour, see C1).
-/

namespace Picomimi

/-- Chip variants, from enum PicomimiChip. -/
inductive PicomimiChip where
  | RP2040
  | RP2350
deriving DecidableEq, Repr

/-- Profile ordinals, from enum PowerProfile. -/
def PROFILE_ULTRA_LOW : Nat := 0
def PROFILE_POWERSAVE : Nat := 1
def PROFILE_BALANCED : Nat := 2
def PROFILE_PERFORMANCE : Nat := 3
def PROFILE_TURBO : Nat := 4
def PROFILE_COUNT : Nat := 5

/-- Frequency table (kHz), RP2040_FREQ / RP2350_FREQ. -/
def freqTbl (chip : PicomimiChip) (p : Nat) : Nat :=
  match chip with
  | .RP2040 => [50000, 100000, 133000, 200000, 250000].getD p 0
  | .RP2350 => [50000, 100000, 150000, 250000, 300000].getD p 0

/-- Scaling thresholds (load percent). -/
def TURBO_UP : ℚ := 70
def TURBO_DOWN : ℚ := 55
def PERF_UP : ℚ := 45
def PERF_DOWN : ℚ := 30
def BAL_UP : ℚ := 20
def BAL_DOWN : ℚ := 12
def SAVE_DOWN : ℚ := 5
def ULTRA_DOWN : ℚ := 2

/-- Timing constants (ms) and thermal thresholds (degrees C). -/
def LOAD_PERIOD_MS : Nat := 200
def SCALE_INTERVAL_MS : Nat := 100
def TURBO_MAX_MS : Nat := 10000
def BOOST_DURATION_MS : Nat := 300
def THERMAL_THROTTLE : ℚ := 70
def THERMAL_CRITICAL : ℚ := 80
def THERMAL_RELEASE : ℚ := 60
def LOAD_SMOOTH : ℚ := 3 / 10
def IDLE_THRESHOLD_US : Nat := 100

/-- The member state of PicomimiGovernorClass (field names follow the
source, with the leading underscore dropped). -/
structure GovState where
  init : Bool
  manual : Bool
  chip : PicomimiChip
  profile : Nat
  freq_khz : Nat
  temp : ℚ
  last_run_us : Nat
  run_start_us : Nat
  total_loop_time_us : Nat
  total_idle_time_us : Nat
  period_start_us : Nat
  avg_load : ℚ
  instant_load : ℚ
  last_scale_ms : Nat
  turbo_start_ms : Nat
  boost_start_ms : Nat
  override_end_ms : Nat
  turbo_on : Bool
  throttled : Bool
  boost_on : Bool
  override_on : Bool
  override_profile : Nat
  adc_init : Bool
  first_run : Bool
deriving DecidableEq, Repr

/-- The constructor PicomimiGovernorClass::PicomimiGovernorClass(). -/
def initialState : GovState where
  init := false
  manual := false
  chip := .RP2040
  profile := PROFILE_BALANCED
  freq_khz := 133000
  temp := 25
  last_run_us := 0
  run_start_us := 0
  total_loop_time_us := 0
  total_idle_time_us := 0
  period_start_us := 0
  avg_load := 0
  instant_load := 0
  last_scale_ms := 0
  turbo_start_ms := 0
  boost_start_ms := 0
  override_end_ms := 0
  turbo_on := false
  throttled := false
  boost_on := false
  override_on := false
  override_profile := PROFILE_BALANCED
  adc_init := false
  first_run := true

/-- The conversion of a raw 12-bit ADC reading into degrees Celsius
performed at the top of PicomimiGovernorClass::_thermal. -/
def tempOf (raw : Nat) : ℚ :=
  27 - ((raw : ℚ) * ((33 / 10) / 4096) - 706 / 1000) / (1721 / 1000000)

/-- PicomimiGovernorClass::_setFreq.  The voltage programming and the
busy wait do not touch governor state; what remains is the recorded
frequency: on set_sys_clock_khz failure (clk_ok = false) the source falls
back to the 133 MHz baseline and records that. -/
def setFreq (clk_ok : Bool) (khz : Nat) (s : GovState) : GovState :=
  if clk_ok = false then { s with freq_khz := 133000 }
  else { s with freq_khz := khz }

/-- PicomimiGovernorClass::_apply. -/
def apply (now_ms : Nat) (clk_ok : Bool) (p : Nat) (s : GovState) : GovState :=
  if PROFILE_COUNT ≤ p then s
  else
    let s1 := setFreq clk_ok (freqTbl s.chip p) s
    let s2 := { s1 with profile := p }
    if p = PROFILE_TURBO ∧ s2.turbo_on = false then
      { s2 with turbo_start_ms := now_ms, turbo_on := true }
    else if p ≠ PROFILE_TURBO then { s2 with turbo_on := false }
    else s2

/-- PicomimiGovernorClass::_thermal. -/
def thermal (now_ms : Nat) (raw : Nat) (clk_ok : Bool) (s : GovState) : GovState :=
  let t := tempOf raw
  let s0 := { s with temp := t }
  if THERMAL_CRITICAL ≤ t then
    let s1 := { s0 with throttled := true }
    if PROFILE_POWERSAVE < s1.profile then apply now_ms clk_ok PROFILE_POWERSAVE s1 else s1
  else if THERMAL_THROTTLE ≤ t ∧ s0.throttled = false then
    let s1 := { s0 with throttled := true }
    if PROFILE_BALANCED < s1.profile then apply now_ms clk_ok PROFILE_BALANCED s1 else s1
  else if t < THERMAL_RELEASE then { s0 with throttled := false }
  else s0

/-- PicomimiGovernorClass::_timeouts. -/
def timeouts (now_ms : Nat) (clk_ok : Bool) (s : GovState) : GovState :=
  let s1 :=
    if s.turbo_on = true ∧ TURBO_MAX_MS ≤ now_ms - s.turbo_start_ms then
      let s' := { s with turbo_on := false }
      if s'.profile = PROFILE_TURBO then apply now_ms clk_ok PROFILE_PERFORMANCE s' else s'
    else s
  let s2 :=
    if s1.boost_on = true ∧ BOOST_DURATION_MS ≤ now_ms - s1.boost_start_ms then
      { s1 with boost_on := false }
    else s1
  if s2.override_on = true ∧ 0 < s2.override_end_ms ∧ s2.override_end_ms ≤ now_ms then
    { s2 with override_on := false, override_end_ms := 0 }
  else s2

/-- The local `target` computed by PicomimiGovernorClass::_scale before
its final `if (target != _profile) _apply(target)`: the upward chain
(guarded by can_up = !_throttled), overwritten by the independent
downward chain, then the thermal clamp to BALANCED. -/
def scaleTarget (s : GovState) : Nat :=
  let load := s.avg_load
  let t1 : Nat :=
    if s.throttled = false ∧ TURBO_UP ≤ load ∧ s.profile < PROFILE_TURBO then PROFILE_TURBO
    else if s.throttled = false ∧ PERF_UP ≤ load ∧ s.profile < PROFILE_PERFORMANCE then
      PROFILE_PERFORMANCE
    else if s.throttled = false ∧ BAL_UP ≤ load ∧ s.profile < PROFILE_BALANCED then
      PROFILE_BALANCED
    else s.profile
  let t2 : Nat :=
    if s.profile = PROFILE_TURBO ∧ load < TURBO_DOWN then PROFILE_PERFORMANCE
    else if s.profile = PROFILE_PERFORMANCE ∧ load < PERF_DOWN then PROFILE_BALANCED
    else if s.profile = PROFILE_BALANCED ∧ load < BAL_DOWN then PROFILE_POWERSAVE
    else if s.profile = PROFILE_POWERSAVE ∧ load < SAVE_DOWN then PROFILE_ULTRA_LOW
    else t1
  if s.throttled = true ∧ PROFILE_BALANCED < t2 then PROFILE_BALANCED else t2

/-- PicomimiGovernorClass::_scale. -/
def scale (now_ms : Nat) (clk_ok : Bool) (s : GovState) : GovState :=
  if s.boost_on = true ∧ PROFILE_PERFORMANCE ≤ s.profile then s
  else if scaleTarget s ≠ s.profile then apply now_ms clk_ok (scaleTarget s) s
  else s

/-- The instantaneous-load cascade inside PicomimiGovernorClass::_updateLoad
(loop is _total_loop_time_us, elapsed the period's elapsed microseconds). -/
def instLoad (loop elapsed : Nat) : ℚ :=
  if loop < IDLE_THRESHOLD_US * 10 then 0
  else if loop < 1000 then 0
  else if loop < 10000 then ((loop : ℚ) / (elapsed : ℚ)) * 100
  else if loop < 50000 then ((loop : ℚ) / (elapsed : ℚ)) * 100
  else if loop < 100000 then ((loop : ℚ) / (elapsed : ℚ)) * 100
  else ((loop : ℚ) / (elapsed : ℚ)) * 100

/-- The two clamping statements of PicomimiGovernorClass::_updateLoad. -/
def clampLoad (x : ℚ) : ℚ :=
  let x1 := if x < 0 then 0 else x
  if 100 < x1 then 100 else x1

/-- PicomimiGovernorClass::_updateLoad.  The source re-reads the
microsecond clock at its top; that read happens within the same run()
call as the read at run()'s entry, and the two adjacent reads of the
monotonic clock are modelled as the same value now_us. -/
def updateLoad (now_us : Nat) (s : GovState) : GovState :=
  let period_elapsed := now_us - s.period_start_us
  if period_elapsed < LOAD_PERIOD_MS * 1000 then s
  else
    let inst := clampLoad (instLoad s.total_loop_time_us period_elapsed)
    { s with
      instant_load := inst
      avg_load := s.avg_load * (1 - LOAD_SMOOTH) + inst * LOAD_SMOOTH
      period_start_us := now_us
      total_loop_time_us := 0 }

/-- Environment inputs consumed by one call to run(): the two clock reads
at entry (microseconds, then milliseconds), the raw ADC temperature
reading, the actuator success flag, and the clock read at exit. -/
structure Env where
  now_us : Nat
  now_ms : Nat
  raw : Nat
  clk_ok : Bool
  end_us : Nat
deriving DecidableEq, Repr

/-- The work-accounting prefix of PicomimiGovernorClass::run: on every
tick but the first, add max(elapsed - idle, 0) to the period's work total
(uint64 guarded subtraction = Nat truncated subtraction), then clear the
first-run flag and reset the idle accumulator. -/
def tickAccount (now_us : Nat) (s : GovState) : GovState :=
  let s1 :=
    if s.first_run = false then
      { s with total_loop_time_us :=
          s.total_loop_time_us + ((now_us - s.last_run_us) - s.total_idle_time_us) }
    else s
  { s1 with first_run := false, total_idle_time_us := 0 }

/-- The scale-evaluation cycle of PicomimiGovernorClass::run: every
SCALE_INTERVAL_MS, thermal check, timeout supervision, and (unless an
override is active) the profile state machine. -/
def scaleCycle (now_ms raw : Nat) (clk_ok : Bool) (s : GovState) : GovState :=
  if SCALE_INTERVAL_MS ≤ now_ms - s.last_scale_ms then
    let sa := thermal now_ms raw clk_ok s
    let sb := timeouts now_ms clk_ok sa
    let sc := if sb.override_on = false then scale now_ms clk_ok sb else sb
    { sc with last_scale_ms := now_ms }
  else s

/-- PicomimiGovernorClass::run.  The WFI branch and the serial console
handling do not modify governor state (runs are modelled with no pending
console input); the final statement re-reads the clock into
_last_run_us (end_us). -/
def run (e : Env) (s : GovState) : GovState :=
  if s.init = false then s
  else
    let s3 := updateLoad e.now_us (tickAccount e.now_us s)
    { scaleCycle e.now_ms e.raw e.clk_ok s3 with last_run_us := e.end_us }

/-- PicomimiGovernorClass::idle (the blocking delay itself has no effect
on governor state). -/
def idle (ms : Nat) (s : GovState) : GovState :=
  { s with total_idle_time_us := s.total_idle_time_us + ms * 1000 }

/-- PicomimiGovernorClass::idleMicros. -/
def idleMicros (us : Nat) (s : GovState) : GovState :=
  { s with total_idle_time_us := s.total_idle_time_us + us }

/-- PicomimiGovernorClass::inputBoost. -/
def inputBoost (now_ms : Nat) (clk_ok : Bool) (s : GovState) : GovState :=
  if s.init = false ∨ s.throttled = true then s
  else
    let s1 := { s with boost_start_ms := now_ms, boost_on := true }
    if s1.profile < PROFILE_PERFORMANCE then apply now_ms clk_ok PROFILE_PERFORMANCE s1 else s1

/-- PicomimiGovernorClass::setProfile.  Note: the source has no _init
guard here; before begin() the frequency table pointer it hands to
_apply/_setFreq is NULL (we model the table as the pure chip lookup). -/
def setProfile (now_ms : Nat) (clk_ok : Bool) (p : Nat) (duration_sec : Nat)
    (s : GovState) : GovState :=
  if PROFILE_COUNT ≤ p then s
  else
    let s1 := { s with
      override_on := true
      override_profile := p
      override_end_ms := if 0 < duration_sec then now_ms + duration_sec * 1000 else 0 }
    apply now_ms clk_ok p s1

/-- PicomimiGovernorClass::setTurbo. -/
def setTurbo (now_ms : Nat) (clk_ok : Bool) (sec : Nat) (s : GovState) : GovState :=
  setProfile now_ms clk_ok PROFILE_TURBO sec s

/-- PicomimiGovernorClass::setPowersave. -/
def setPowersave (now_ms : Nat) (clk_ok : Bool) (sec : Nat) (s : GovState) : GovState :=
  setProfile now_ms clk_ok PROFILE_POWERSAVE sec s

/-- PicomimiGovernorClass::setAuto. -/
def setAuto (s : GovState) : GovState :=
  { s with override_on := false, override_end_ms := 0 }

/-- PicomimiGovernorClass::begin (now_us / now_ms are the two clock reads
it performs). -/
def begin (chip : PicomimiChip) (manual : Bool) (now_us : Nat) (now_ms : Nat)
    (s : GovState) : GovState :=
  { s with
    chip := chip
    manual := manual
    adc_init := true
    profile := PROFILE_BALANCED
    freq_khz := freqTbl chip PROFILE_BALANCED
    last_run_us := now_us
    run_start_us := now_us
    period_start_us := now_us
    total_loop_time_us := 0
    total_idle_time_us := 0
    first_run := true
    last_scale_ms := now_ms
    init := true }

/-- Status accessors. -/
def getFreqMHz (s : GovState) : Nat := s.freq_khz / 1000
def getCPULoad (s : GovState) : ℚ := s.avg_load
def getTemperature (s : GovState) : ℚ := s.temp
def getProfile (s : GovState) : Nat := s.profile
def isTurbo (s : GovState) : Bool := s.turbo_on
def isThrottled (s : GovState) : Bool := s.throttled

/-- One public API call made after initialization (begin() itself is the
initialization and is applied separately). -/
inductive Op where
  | runOp (e : Env)
  | idleOp (ms : Nat)
  | idleMicrosOp (us : Nat)
  | inputBoostOp (now_ms : Nat) (clk_ok : Bool)
  | setProfileOp (now_ms : Nat) (clk_ok : Bool) (p : Nat) (dur : Nat)
  | setTurboOp (now_ms : Nat) (clk_ok : Bool) (sec : Nat)
  | setPowersaveOp (now_ms : Nat) (clk_ok : Bool) (sec : Nat)
  | setAutoOp
deriving DecidableEq, Repr

/-- Interpretation of one API call. -/
def exec : Op → GovState → GovState
  | .runOp e, s => run e s
  | .idleOp ms, s => idle ms s
  | .idleMicrosOp us, s => idleMicros us s
  | .inputBoostOp n ok, s => inputBoost n ok s
  | .setProfileOp n ok p d, s => setProfile n ok p d s
  | .setTurboOp n ok sec, s => setTurbo n ok sec s
  | .setPowersaveOp n ok sec, s => setPowersave n ok sec s
  | .setAutoOp, s => setAuto s

/-- Interpretation of a sequence of API calls, first call first. -/
def execs (ops : List Op) (s : GovState) : GovState :=
  ops.foldl (fun s op => exec op s) s

/-- Automatic operation: a tick or an input-boost trigger (no manual
override API). -/
def Op.auto : Op → Prop
  | .runOp _ => True
  | .inputBoostOp _ _ => True
  | _ => False

/-- The throttled flag holds at every state along the execution of the
given call sequence, the final state included. -/
def allThrottled : List Op → GovState → Prop
  | [], s => s.throttled = true
  | op :: ops, s => s.throttled = true ∧ allThrottled ops (exec op s)

/-- The per-profile downward threshold named by the spec's hysteresis
bands (TURBO_DOWN / PERF_DOWN / BAL_DOWN / SAVE_DOWN / ULTRA_DOWN). -/
def downTh (p : Nat) : ℚ :=
  if p = 4 then TURBO_DOWN
  else if p = 3 then PERF_DOWN
  else if p = 2 then BAL_DOWN
  else if p = 1 then SAVE_DOWN
  else ULTRA_DOWN

/-- The per-profile upward threshold paired with downTh by the spec's
hysteresis bands (TURBO_UP / PERF_UP / BAL_UP). -/
def upTh (p : Nat) : ℚ :=
  if p = 4 then TURBO_UP
  else if p = 3 then PERF_UP
  else BAL_UP

/- Concrete states used by witnesses and counterexamples. -/

/-- An initialized, thermally throttled state at BALANCED. -/
def sThrottledW : GovState := { initialState with init := true, throttled := true }

/-- An initialized state in TURBO with the turbo flag set. -/
def sHotW : GovState :=
  { initialState with init := true, profile := PROFILE_TURBO, turbo_on := true }

/-- An initialized state holding 150 ms of accumulated work. -/
def sLoadW : GovState := { initialState with init := true, total_loop_time_us := 150000 }

/-- An initialized state at ULTRA_LOW with smoothed load 80. -/
def sJumpW : GovState :=
  { initialState with init := true, profile := PROFILE_ULTRA_LOW, avg_load := 80 }

/-- An initialized state at POWERSAVE with smoothed load 50. -/
def sPerfW : GovState :=
  { initialState with init := true, profile := PROFILE_POWERSAVE, avg_load := 50 }

/-- An initialized state at BALANCED with smoothed load 15. -/
def sBalW : GovState :=
  { initialState with init := true, profile := PROFILE_BALANCED, avg_load := 15 }

/- ========================================================================
   Helper lemmas: projections preserved by the internal steps.
   ======================================================================== -/

theorem setFreq_profile (ok : Bool) (khz : Nat) (s : GovState) :
    (setFreq ok khz s).profile = s.profile := by
  simp only [setFreq]; split_ifs <;> rfl

theorem apply_profile (n : Nat) (ok : Bool) (p : Nat) (s : GovState) (h : p < PROFILE_COUNT) :
    (apply n ok p s).profile = p := by
  simp only [apply, setFreq]
  split_ifs <;> first | rfl | omega

theorem apply_profile_big (n : Nat) (ok : Bool) (p : Nat) (s : GovState)
    (h : PROFILE_COUNT ≤ p) : apply n ok p s = s := by
  simp only [apply]; split_ifs <;> first | rfl | omega

theorem apply_throttled (n : Nat) (ok : Bool) (p : Nat) (s : GovState) :
    (apply n ok p s).throttled = s.throttled := by
  simp only [apply, setFreq]; split_ifs <;> rfl

theorem apply_avg_load (n : Nat) (ok : Bool) (p : Nat) (s : GovState) :
    (apply n ok p s).avg_load = s.avg_load := by
  simp only [apply, setFreq]; split_ifs <;> rfl

theorem apply_instant_load (n : Nat) (ok : Bool) (p : Nat) (s : GovState) :
    (apply n ok p s).instant_load = s.instant_load := by
  simp only [apply, setFreq]; split_ifs <;> rfl

theorem apply_override_on (n : Nat) (ok : Bool) (p : Nat) (s : GovState) :
    (apply n ok p s).override_on = s.override_on := by
  simp only [apply, setFreq]; split_ifs <;> rfl

theorem apply_turbo_on_ne (n : Nat) (ok : Bool) (p : Nat) (s : GovState)
    (h5 : p < PROFILE_COUNT) (h4 : p ≠ PROFILE_TURBO) :
    (apply n ok p s).turbo_on = false := by
  simp only [apply, setFreq]
  split_ifs <;> first | rfl | omega | tauto

theorem apply_turbo_inv (n : Nat) (ok : Bool) (p : Nat) (s : GovState)
    (h : s.turbo_on = true → s.profile = PROFILE_TURBO) :
    (apply n ok p s).turbo_on = true → (apply n ok p s).profile = PROFILE_TURBO := by
  simp only [apply, setFreq]
  split_ifs <;> simp_all <;> omega

theorem apply_turbo_start_of_turbo_on (n : Nat) (ok : Bool) (s : GovState)
    (h : s.turbo_on = true) :
    (apply n ok PROFILE_TURBO s).turbo_start_ms = s.turbo_start_ms := by
  simp only [apply, setFreq]
  split_ifs <;> simp_all [PROFILE_TURBO, PROFILE_COUNT]

theorem thermal_avg_load (n r : Nat) (ok : Bool) (s : GovState) :
    (thermal n r ok s).avg_load = s.avg_load := by
  simp only [thermal]
  split_ifs <;> simp [apply_avg_load]

theorem thermal_instant_load (n r : Nat) (ok : Bool) (s : GovState) :
    (thermal n r ok s).instant_load = s.instant_load := by
  simp only [thermal]
  split_ifs <;> simp [apply_instant_load]

theorem thermal_override_on (n r : Nat) (ok : Bool) (s : GovState) :
    (thermal n r ok s).override_on = s.override_on := by
  simp only [thermal]
  split_ifs <;> simp [apply_override_on]

theorem thermal_cases (n r : Nat) (ok : Bool) (s : GovState) (h : s.throttled = true) :
    (thermal n r ok s).throttled = false ∨
      ((thermal n r ok s).throttled = true ∧
        ((thermal n r ok s).profile = s.profile ∨
          (thermal n r ok s).profile = PROFILE_POWERSAVE)) := by
  simp only [thermal]
  split_ifs with h1 h2 h3 h4 <;>
    simp_all [apply_throttled, apply_profile, PROFILE_POWERSAVE, PROFILE_COUNT]

theorem thermal_turbo_inv (n r : Nat) (ok : Bool) (s : GovState)
    (h : s.turbo_on = true → s.profile = PROFILE_TURBO) :
    (thermal n r ok s).turbo_on = true → (thermal n r ok s).profile = PROFILE_TURBO := by
  simp only [thermal]
  split_ifs with h1 h2 h3 h4 <;>
    first
    | exact apply_turbo_inv _ _ _ _ (by simpa using h)
    | simpa using h

theorem timeouts_throttled (n : Nat) (ok : Bool) (s : GovState) :
    (timeouts n ok s).throttled = s.throttled := by
  simp only [timeouts]
  split_ifs <;> simp [apply_throttled]

theorem timeouts_avg_load (n : Nat) (ok : Bool) (s : GovState) :
    (timeouts n ok s).avg_load = s.avg_load := by
  simp only [timeouts]
  split_ifs <;> simp [apply_avg_load]

theorem timeouts_instant_load (n : Nat) (ok : Bool) (s : GovState) :
    (timeouts n ok s).instant_load = s.instant_load := by
  simp only [timeouts]
  split_ifs <;> simp [apply_instant_load]

theorem timeouts_profile_cases (n : Nat) (ok : Bool) (s : GovState) :
    (timeouts n ok s).profile = s.profile ∨
      (s.profile = PROFILE_TURBO ∧ (timeouts n ok s).profile = PROFILE_PERFORMANCE) := by
  simp only [timeouts]
  split_ifs <;>
    simp_all [apply_profile, PROFILE_PERFORMANCE, PROFILE_TURBO, PROFILE_COUNT]

theorem timeouts_turbo_inv (n : Nat) (ok : Bool) (s : GovState)
    (h : s.turbo_on = true → s.profile = PROFILE_TURBO) :
    (timeouts n ok s).turbo_on = true → (timeouts n ok s).profile = PROFILE_TURBO := by
  simp only [timeouts]
  split_ifs <;>
    first
    | simp_all [apply_turbo_on_ne, PROFILE_PERFORMANCE, PROFILE_TURBO, PROFILE_COUNT]
    | simpa using h

theorem scale_throttled (n : Nat) (ok : Bool) (s : GovState) :
    (scale n ok s).throttled = s.throttled := by
  simp only [scale]
  split_ifs <;> simp [apply_throttled]

theorem scale_avg_load (n : Nat) (ok : Bool) (s : GovState) :
    (scale n ok s).avg_load = s.avg_load := by
  simp only [scale]
  split_ifs <;> simp [apply_avg_load]

theorem scale_instant_load (n : Nat) (ok : Bool) (s : GovState) :
    (scale n ok s).instant_load = s.instant_load := by
  simp only [scale]
  split_ifs <;> simp [apply_instant_load]

/-- While throttled the computed target never exceeds BALANCED: the final
clamp sends anything above it to BALANCED. -/
theorem scaleTarget_le_of_throttled (s : GovState) (h : s.throttled = true) :
    scaleTarget s ≤ PROFILE_BALANCED := by
  simp only [scaleTarget, PROFILE_TURBO, PROFILE_PERFORMANCE, PROFILE_BALANCED,
    PROFILE_POWERSAVE, PROFILE_ULTRA_LOW]
  split_ifs <;> simp_all <;> omega

theorem scale_profile_of_throttled (n : Nat) (ok : Bool) (s : GovState)
    (h : s.throttled = true) :
    (scale n ok s).profile = s.profile ∨ (scale n ok s).profile ≤ PROFILE_BALANCED := by
  have ht := scaleTarget_le_of_throttled s h
  simp only [scale]
  split_ifs with h1 h2
  · left; rfl
  · right
    rw [apply_profile]
    · exact ht
    · simp only [PROFILE_COUNT, PROFILE_BALANCED] at *; omega
  · left; rfl

theorem scale_turbo_inv (n : Nat) (ok : Bool) (s : GovState)
    (h : s.turbo_on = true → s.profile = PROFILE_TURBO) :
    (scale n ok s).turbo_on = true → (scale n ok s).profile = PROFILE_TURBO := by
  simp only [scale]
  split_ifs <;>
    first
    | exact apply_turbo_inv _ _ _ _ h
    | simpa using h

theorem updateLoad_profile (n : Nat) (s : GovState) :
    (updateLoad n s).profile = s.profile := by
  simp only [updateLoad]; split_ifs <;> rfl

theorem updateLoad_throttled (n : Nat) (s : GovState) :
    (updateLoad n s).throttled = s.throttled := by
  simp only [updateLoad]; split_ifs <;> rfl

theorem updateLoad_turbo_on (n : Nat) (s : GovState) :
    (updateLoad n s).turbo_on = s.turbo_on := by
  simp only [updateLoad]; split_ifs <;> rfl

theorem updateLoad_override_on (n : Nat) (s : GovState) :
    (updateLoad n s).override_on = s.override_on := by
  simp only [updateLoad]; split_ifs <;> rfl

theorem updateLoad_total_idle (n : Nat) (s : GovState) :
    (updateLoad n s).total_idle_time_us = s.total_idle_time_us := by
  simp only [updateLoad]; split_ifs <;> rfl

/-- The clamped value is within [0, 100] unconditionally. -/
theorem clampLoad_bounds (x : ℚ) : 0 ≤ clampLoad x ∧ clampLoad x ≤ 100 := by
  simp only [clampLoad]
  split_ifs <;> constructor <;> linarith

/-- The smoothed load stays in [0, 100]: it is a convex combination of the
previous smoothed value and the clamped instantaneous value. -/
theorem updateLoad_avg_bounds (n : Nat) (s : GovState)
    (ha0 : 0 ≤ s.avg_load) (ha1 : s.avg_load ≤ 100) :
    0 ≤ (updateLoad n s).avg_load ∧ (updateLoad n s).avg_load ≤ 100 := by
  simp only [updateLoad]
  split_ifs
  · exact ⟨ha0, ha1⟩
  · obtain ⟨hc0, hc1⟩ := clampLoad_bounds (instLoad s.total_loop_time_us (n - s.period_start_us))
    simp only [LOAD_SMOOTH]
    constructor <;> nlinarith

/-- The instantaneous load after a recomputation is within [0, 100]. -/
theorem updateLoad_instant_bounds (n : Nat) (s : GovState)
    (hi0 : 0 ≤ s.instant_load) (hi1 : s.instant_load ≤ 100) :
    0 ≤ (updateLoad n s).instant_load ∧ (updateLoad n s).instant_load ≤ 100 := by
  simp only [updateLoad]
  split_ifs
  · exact ⟨hi0, hi1⟩
  · simpa using clampLoad_bounds (instLoad s.total_loop_time_us (n - s.period_start_us))

theorem tickAccount_profile (n : Nat) (s : GovState) :
    (tickAccount n s).profile = s.profile := by
  simp only [tickAccount]; split_ifs <;> rfl

theorem tickAccount_throttled (n : Nat) (s : GovState) :
    (tickAccount n s).throttled = s.throttled := by
  simp only [tickAccount]; split_ifs <;> rfl

theorem tickAccount_turbo_on (n : Nat) (s : GovState) :
    (tickAccount n s).turbo_on = s.turbo_on := by
  simp only [tickAccount]; split_ifs <;> rfl

theorem tickAccount_avg_load (n : Nat) (s : GovState) :
    (tickAccount n s).avg_load = s.avg_load := by
  simp only [tickAccount]; split_ifs <;> rfl

theorem tickAccount_instant_load (n : Nat) (s : GovState) :
    (tickAccount n s).instant_load = s.instant_load := by
  simp only [tickAccount]; split_ifs <;> rfl

theorem scaleCycle_throttled (n r : Nat) (ok : Bool) (s : GovState) :
    (scaleCycle n r ok s).throttled = (thermal n r ok s).throttled ∨
      (scaleCycle n r ok s).throttled = s.throttled := by
  simp only [scaleCycle]
  split_ifs <;>
    simp [scale_throttled, timeouts_throttled, apply_throttled]

/-- Core step lemma for the throttling cap: one scale-evaluation cycle that
starts throttled and ends throttled never raises the profile above
BALANCED (it can only keep an already-higher profile or lower it). -/
theorem scaleCycle_throttled_profile (n r : Nat) (ok : Bool) (s : GovState)
    (h : s.throttled = true) (h' : (scaleCycle n r ok s).throttled = true) :
    (scaleCycle n r ok s).profile ≤ max s.profile PROFILE_BALANCED := by
  simp only [scaleCycle] at *
  split_ifs at h' ⊢ with hc hov
  · -- cycle ran, no override pending after timeouts: scale clamps
    simp only [hov, if_true] at h' ⊢
    rcases thermal_cases n r ok s h with hfalse | ⟨hth, hp⟩
    · rw [scale_throttled, timeouts_throttled] at h'
      simp_all
    · have htb : (timeouts n ok (thermal n r ok s)).throttled = true := by
        rw [timeouts_throttled]; exact hth
      rcases timeouts_profile_cases n ok (thermal n r ok s) with htp | ⟨_, htp⟩ <;>
        rcases scale_profile_of_throttled n ok _ htb with hsp | hsp <;>
        rcases hp with hp | hp <;>
        simp only [PROFILE_BALANCED, PROFILE_POWERSAVE, PROFILE_TURBO,
          PROFILE_PERFORMANCE] at * <;>
        omega
  · -- cycle ran, override still pending: the state machine is skipped
    simp only [hov, if_false] at h' ⊢
    rcases thermal_cases n r ok s h with hfalse | ⟨hth, hp⟩
    · rw [timeouts_throttled] at h'
      simp_all
    · rcases timeouts_profile_cases n ok (thermal n r ok s) with htp | ⟨hp4, htp⟩ <;>
        rcases hp with hp | hp <;>
        simp only [PROFILE_BALANCED, PROFILE_POWERSAVE, PROFILE_TURBO,
          PROFILE_PERFORMANCE] at * <;>
        omega
  · -- interval not yet elapsed: nothing runs
    simp only [le_max_left]

theorem scaleCycle_turbo_inv (n r : Nat) (ok : Bool) (s : GovState)
    (h : s.turbo_on = true → s.profile = PROFILE_TURBO) :
    (scaleCycle n r ok s).turbo_on = true → (scaleCycle n r ok s).profile = PROFILE_TURBO := by
  simp only [scaleCycle]
  split_ifs with hc hov
  · intro hh
    exact scale_turbo_inv _ _ _ (timeouts_turbo_inv _ _ _ (thermal_turbo_inv _ _ _ _ h)) hh
  · intro hh
    exact timeouts_turbo_inv _ _ _ (thermal_turbo_inv _ _ _ _ h) hh
  · exact h

/-- One run() that starts throttled and ends throttled never raises the
profile above BALANCED. -/
theorem run_throttled_profile (e : Env) (s : GovState)
    (h : s.throttled = true) (h' : (run e s).throttled = true) :
    (run e s).profile ≤ max s.profile PROFILE_BALANCED := by
  simp only [run] at *
  split_ifs at h' ⊢ with hinit
  · exact le_max_left _ _
  · have hpre : (updateLoad e.now_us (tickAccount e.now_us s)).throttled = true := by
      rw [updateLoad_throttled, tickAccount_throttled]; exact h
    have := scaleCycle_throttled_profile e.now_ms e.raw e.clk_ok
      (updateLoad e.now_us (tickAccount e.now_us s)) hpre (by simpa using h')
    simpa [updateLoad_profile, tickAccount_profile] using this

/-- inputBoost is a no-op while throttled (and before initialization). -/
theorem inputBoost_of_throttled (n : Nat) (ok : Bool) (s : GovState)
    (h : s.throttled = true) : inputBoost n ok s = s := by
  simp [inputBoost, h]

theorem apply_total_loop (n : Nat) (ok : Bool) (p : Nat) (s : GovState) :
    (apply n ok p s).total_loop_time_us = s.total_loop_time_us := by
  simp only [apply, setFreq]; split_ifs <;> rfl

theorem apply_total_idle (n : Nat) (ok : Bool) (p : Nat) (s : GovState) :
    (apply n ok p s).total_idle_time_us = s.total_idle_time_us := by
  simp only [apply, setFreq]; split_ifs <;> rfl

theorem thermal_total_loop (n r : Nat) (ok : Bool) (s : GovState) :
    (thermal n r ok s).total_loop_time_us = s.total_loop_time_us := by
  simp only [thermal]; split_ifs <;> simp [apply_total_loop]

theorem thermal_total_idle (n r : Nat) (ok : Bool) (s : GovState) :
    (thermal n r ok s).total_idle_time_us = s.total_idle_time_us := by
  simp only [thermal]; split_ifs <;> simp [apply_total_idle]

theorem timeouts_total_loop (n : Nat) (ok : Bool) (s : GovState) :
    (timeouts n ok s).total_loop_time_us = s.total_loop_time_us := by
  simp only [timeouts]; split_ifs <;> simp [apply_total_loop]

theorem timeouts_total_idle (n : Nat) (ok : Bool) (s : GovState) :
    (timeouts n ok s).total_idle_time_us = s.total_idle_time_us := by
  simp only [timeouts]; split_ifs <;> simp [apply_total_idle]

theorem scale_total_loop (n : Nat) (ok : Bool) (s : GovState) :
    (scale n ok s).total_loop_time_us = s.total_loop_time_us := by
  simp only [scale]; split_ifs <;> simp [apply_total_loop]

theorem scale_total_idle (n : Nat) (ok : Bool) (s : GovState) :
    (scale n ok s).total_idle_time_us = s.total_idle_time_us := by
  simp only [scale]; split_ifs <;> simp [apply_total_idle]

theorem scaleCycle_total_loop (n r : Nat) (ok : Bool) (s : GovState) :
    (scaleCycle n r ok s).total_loop_time_us = s.total_loop_time_us := by
  simp only [scaleCycle]
  split_ifs <;>
    simp [scale_total_loop, timeouts_total_loop, thermal_total_loop]

theorem scaleCycle_total_idle (n r : Nat) (ok : Bool) (s : GovState) :
    (scaleCycle n r ok s).total_idle_time_us = s.total_idle_time_us := by
  simp only [scaleCycle]
  split_ifs <;>
    simp [scale_total_idle, timeouts_total_idle, thermal_total_idle]

theorem scaleCycle_avg_load (n r : Nat) (ok : Bool) (s : GovState) :
    (scaleCycle n r ok s).avg_load = s.avg_load := by
  simp only [scaleCycle]
  split_ifs <;>
    simp [scale_avg_load, timeouts_avg_load, thermal_avg_load]

theorem scaleCycle_instant_load (n r : Nat) (ok : Bool) (s : GovState) :
    (scaleCycle n r ok s).instant_load = s.instant_load := by
  simp only [scaleCycle]
  split_ifs <;>
    simp [scale_instant_load, timeouts_instant_load, thermal_instant_load]

theorem updateLoad_of_small (n : Nat) (s : GovState)
    (h : n - s.period_start_us < LOAD_PERIOD_MS * 1000) : updateLoad n s = s := by
  simp only [updateLoad]
  rw [if_pos h]

theorem tickAccount_total_loop (n : Nat) (s : GovState) :
    (tickAccount n s).total_loop_time_us =
      (if s.first_run = true then s.total_loop_time_us
        else s.total_loop_time_us + ((n - s.last_run_us) - s.total_idle_time_us)) := by
  simp only [tickAccount]
  cases hfr : s.first_run <;> simp [hfr]

theorem tickAccount_total_idle (n : Nat) (s : GovState) :
    (tickAccount n s).total_idle_time_us = 0 := rfl

theorem tickAccount_period_start (n : Nat) (s : GovState) :
    (tickAccount n s).period_start_us = s.period_start_us := by
  simp only [tickAccount]; split_ifs <;> rfl

/- Preservation of the turbo-flag/TURBO-profile implication by each
public operation. -/

theorem run_turbo_inv (e : Env) (s : GovState)
    (h : s.turbo_on = true → s.profile = PROFILE_TURBO) :
    (run e s).turbo_on = true → (run e s).profile = PROFILE_TURBO := by
  simp only [run]
  split_ifs with hinit
  · exact h
  · intro hh
    refine scaleCycle_turbo_inv _ _ _ _ ?_ (by simpa using hh)
    rw [updateLoad_turbo_on, tickAccount_turbo_on, updateLoad_profile, tickAccount_profile]
    exact h

theorem inputBoost_turbo_inv (n : Nat) (ok : Bool) (s : GovState)
    (h : s.turbo_on = true → s.profile = PROFILE_TURBO) :
    (inputBoost n ok s).turbo_on = true → (inputBoost n ok s).profile = PROFILE_TURBO := by
  simp only [inputBoost]
  split_ifs with h1 h2
  · exact h
  · exact apply_turbo_inv _ _ _ _ (by simpa using h)
  · simpa using h

theorem setProfile_turbo_inv (n : Nat) (ok : Bool) (p d : Nat) (s : GovState)
    (h : s.turbo_on = true → s.profile = PROFILE_TURBO) :
    (setProfile n ok p d s).turbo_on = true →
      (setProfile n ok p d s).profile = PROFILE_TURBO := by
  simp only [setProfile]
  split_ifs with h1 h2
  · exact h
  · exact apply_turbo_inv _ _ _ _ (by simpa using h)
  · exact apply_turbo_inv _ _ _ _ (by simpa using h)

theorem exec_turbo_inv (op : Op) (s : GovState)
    (h : s.turbo_on = true → s.profile = PROFILE_TURBO) :
    (exec op s).turbo_on = true → (exec op s).profile = PROFILE_TURBO := by
  cases op with
  | runOp e => exact run_turbo_inv e s h
  | idleOp ms => simpa [exec, idle] using h
  | idleMicrosOp us => simpa [exec, idleMicros] using h
  | inputBoostOp n ok => exact inputBoost_turbo_inv n ok s h
  | setProfileOp n ok p d => exact setProfile_turbo_inv n ok p d s h
  | setTurboOp n ok sec => exact setProfile_turbo_inv n ok _ sec s h
  | setPowersaveOp n ok sec => exact setProfile_turbo_inv n ok _ sec s h
  | setAutoOp => simpa [exec, setAuto] using h

theorem allThrottled_head (ops : List Op) (s : GovState) (h : allThrottled ops s) :
    s.throttled = true := by
  cases ops with
  | nil => exact h
  | cons a l => exact h.1

/- Case analysis of the thermal monitor, one lemma per temperature band. -/

theorem thermal_critical (n raw : Nat) (ok : Bool) (s : GovState)
    (h : THERMAL_CRITICAL ≤ tempOf raw) :
    (thermal n raw ok s).throttled = true ∧
      (thermal n raw ok s).profile = min s.profile PROFILE_POWERSAVE := by
  simp only [thermal]
  rw [if_pos h]
  split_ifs with hp <;>
    constructor <;>
    simp_all [apply_throttled, apply_profile, PROFILE_POWERSAVE, PROFILE_COUNT] <;>
    omega

theorem thermal_warn (n raw : Nat) (ok : Bool) (s : GovState)
    (h1 : THERMAL_THROTTLE ≤ tempOf raw) (h2 : tempOf raw < THERMAL_CRITICAL)
    (h3 : s.throttled = false) :
    (thermal n raw ok s).throttled = true ∧
      (thermal n raw ok s).profile = min s.profile PROFILE_BALANCED := by
  simp only [thermal]
  rw [if_neg (not_le.mpr h2), if_pos (show _ ∧ _ from ⟨h1, h3⟩)]
  split_ifs with hp <;>
    constructor <;>
    simp_all [apply_throttled, apply_profile, PROFILE_BALANCED, PROFILE_COUNT] <;>
    omega

theorem thermal_release (n raw : Nat) (ok : Bool) (s : GovState)
    (h : tempOf raw < THERMAL_RELEASE) :
    (thermal n raw ok s).throttled = false ∧
      (thermal n raw ok s).profile = s.profile := by
  have hw : ¬ THERMAL_THROTTLE ≤ tempOf raw := by
    simp only [THERMAL_RELEASE, THERMAL_THROTTLE] at *
    intro hc; linarith
  have hc : ¬ THERMAL_CRITICAL ≤ tempOf raw := by
    simp only [THERMAL_RELEASE, THERMAL_CRITICAL] at *
    intro hc; linarith
  simp only [thermal]
  rw [if_neg hc, if_neg (by intro hx; exact hw hx.1), if_pos h]
  exact ⟨rfl, rfl⟩

theorem thermal_band (n raw : Nat) (ok : Bool) (s : GovState)
    (h1 : THERMAL_RELEASE ≤ tempOf raw) (h2 : tempOf raw < THERMAL_THROTTLE) :
    (thermal n raw ok s).throttled = s.throttled ∧
      (thermal n raw ok s).profile = s.profile := by
  have hc : ¬ THERMAL_CRITICAL ≤ tempOf raw := by
    simp only [THERMAL_THROTTLE, THERMAL_CRITICAL] at *
    intro hc; linarith
  simp only [thermal]
  rw [if_neg hc, if_neg (by intro hx; exact absurd hx.1 (not_le.mpr h2)),
    if_neg (not_lt.mpr h1)]
  exact ⟨rfl, rfl⟩

/- ========================================================================
   Claims.
   ======================================================================== -/

/-- C1: the claim says every status accessor returns its default before
initialization and every mutating call is a no-op.  The accessors do
return defaults, and run() and inputBoost() are guarded no-ops — but
setProfile (hence setTurbo / setPowersave) mutates the override state
(and in the source also dereferences the NULL frequency-table pointer),
and idle/idleMicros accumulate idle microseconds: the code lacks the
_init guard on these calls. -/
theorem C1_pre_init_guards :
    run { now_us := 0, now_ms := 0, raw := 0, clk_ok := true, end_us := 0 } initialState
        = initialState ∧
    inputBoost 0 true initialState = initialState ∧
    getCPULoad initialState = 0 ∧
    getFreqMHz initialState = 133 ∧
    getProfile initialState = PROFILE_BALANCED ∧
    isTurbo initialState = false ∧
    isThrottled initialState = false ∧
    initialState.override_on = false ∧
    (setProfile 0 true PROFILE_TURBO 0 initialState).override_on = true ∧
    (setProfile 0 true PROFILE_TURBO 0 initialState).profile = PROFILE_TURBO ∧
    initialState.total_idle_time_us = 0 ∧
    (idle 50 initialState).total_idle_time_us = 50000 :=
  ⟨rfl, rfl, rfl, rfl, rfl, rfl, rfl, rfl, rfl, rfl, rfl, rfl⟩

/-- C2: from any state (so in particular any reachable one, with or
without a pending override), as long as the throttled flag holds at every
step of a sequence of automatic operations (run / inputBoost), the
profile never rises above BALANCED: it stays at or below
max(initial profile, BALANCED), so automatic operation never sets it to
a value above BALANCED; inputBoost is a no-op while throttled. -/
theorem C2_throttled_never_above_balanced (ops : List Op) :
    ∀ s : GovState, (∀ op ∈ ops, op.auto) → allThrottled ops s →
      (execs ops s).profile ≤ max s.profile PROFILE_BALANCED := by
  induction ops with
  | nil =>
    intro s _ _
    simpa [execs] using le_max_left s.profile PROFILE_BALANCED
  | cons op ops ih =>
    intro s hauto hth
    obtain ⟨h1, hrest⟩ := hth
    have hstep : (exec op s).profile ≤ max s.profile PROFILE_BALANCED := by
      cases op with
      | runOp e => exact run_throttled_profile e s h1 (allThrottled_head ops _ hrest)
      | inputBoostOp nn ok =>
        rw [show exec (Op.inputBoostOp nn ok) s = inputBoost nn ok s from rfl,
          inputBoost_of_throttled nn ok s h1]
        exact le_max_left _ _
      | idleOp ms => exact (hauto _ (List.mem_cons_self _ _)).elim
      | idleMicrosOp us => exact (hauto _ (List.mem_cons_self _ _)).elim
      | setProfileOp nn ok p d => exact (hauto _ (List.mem_cons_self _ _)).elim
      | setTurboOp nn ok sec => exact (hauto _ (List.mem_cons_self _ _)).elim
      | setPowersaveOp nn ok sec => exact (hauto _ (List.mem_cons_self _ _)).elim
      | setAutoOp => exact (hauto _ (List.mem_cons_self _ _)).elim
    have hih := ih (exec op s) (fun o ho => hauto o (List.mem_cons_of_mem _ ho)) hrest
    have hr : execs (op :: ops) s = execs ops (exec op s) := rfl
    rw [hr]
    omega

theorem C2_witness :
    (∀ op ∈ [Op.runOp { now_us := 0, now_ms := 0, raw := 795, clk_ok := true, end_us := 0 }],
        op.auto) ∧
    allThrottled [Op.runOp { now_us := 0, now_ms := 0, raw := 795, clk_ok := true, end_us := 0 }]
      sThrottledW ∧
    (execs [Op.runOp { now_us := 0, now_ms := 0, raw := 795, clk_ok := true, end_us := 0 }]
        sThrottledW).profile ≤ max sThrottledW.profile PROFILE_BALANCED :=
  ⟨by simp [Op.auto], ⟨rfl, rfl⟩,
    C2_throttled_never_above_balanced _ sThrottledW (by simp [Op.auto]) ⟨rfl, rfl⟩⟩

/-- C3: the thermal step is a hysteresis band: at or above the critical
threshold (80) it throttles and forces the profile down to at most
POWERSAVE; at or above the warn threshold (70), if not yet throttled, it
throttles and forces the profile down to at most BALANCED; below the
release threshold (60) it unthrottles; in the band [60, 70) the throttled
flag (and the profile) is unchanged. -/
theorem C3_thermal_hysteresis (n raw : Nat) (ok : Bool) (s : GovState) :
    (THERMAL_CRITICAL ≤ tempOf raw →
      (thermal n raw ok s).throttled = true ∧
        (thermal n raw ok s).profile = min s.profile PROFILE_POWERSAVE) ∧
    (THERMAL_THROTTLE ≤ tempOf raw → tempOf raw < THERMAL_CRITICAL →
      s.throttled = false →
      (thermal n raw ok s).throttled = true ∧
        (thermal n raw ok s).profile = min s.profile PROFILE_BALANCED) ∧
    (tempOf raw < THERMAL_RELEASE →
      (thermal n raw ok s).throttled = false ∧
        (thermal n raw ok s).profile = s.profile) ∧
    (THERMAL_RELEASE ≤ tempOf raw → tempOf raw < THERMAL_THROTTLE →
      (thermal n raw ok s).throttled = s.throttled ∧
        (thermal n raw ok s).profile = s.profile) :=
  ⟨fun h => thermal_critical n raw ok s h,
    fun h1 h2 h3 => thermal_warn n raw ok s h1 h2 h3,
    fun h => thermal_release n raw ok s h,
    fun h1 h2 => thermal_band n raw ok s h1 h2⟩

theorem C3_witness :
    ((thermal 0 700 true sHotW).throttled = true ∧
      (thermal 0 700 true sHotW).profile = min sHotW.profile PROFILE_POWERSAVE) ∧
    ((thermal 0 770 true sLoadW).throttled = true ∧
      (thermal 0 770 true sLoadW).profile = min sLoadW.profile PROFILE_BALANCED) ∧
    ((thermal 0 900 true sThrottledW).throttled = false ∧
      (thermal 0 900 true sThrottledW).profile = sThrottledW.profile) ∧
    ((thermal 0 795 true sThrottledW).throttled = sThrottledW.throttled ∧
      (thermal 0 795 true sThrottledW).profile = sThrottledW.profile) :=
  ⟨(C3_thermal_hysteresis 0 700 true sHotW).1
      (by norm_num [tempOf, THERMAL_CRITICAL]),
    (C3_thermal_hysteresis 0 770 true sLoadW).2.1
      (by norm_num [tempOf, THERMAL_THROTTLE]) (by norm_num [tempOf, THERMAL_CRITICAL]) rfl,
    (C3_thermal_hysteresis 0 900 true sThrottledW).2.2.1
      (by norm_num [tempOf, THERMAL_RELEASE]),
    (C3_thermal_hysteresis 0 795 true sThrottledW).2.2.2
      (by norm_num [tempOf, THERMAL_RELEASE]) (by norm_num [tempOf, THERMAL_THROTTLE])⟩

/-- The five-way work cascade of _updateLoad collapses to a single
threshold test, since every branch at or above 1000 us computes the same
ratio and IDLE_THRESHOLD_US * 10 = 1000. -/
theorem instLoad_eq (loop el : Nat) :
    instLoad loop el = if loop < 1000 then 0 else ((loop : ℚ) / (el : ℚ)) * 100 := by
  simp only [instLoad, IDLE_THRESHOLD_US]
  split_ifs <;> first | rfl | omega

/-- C4: when a full sampling period (200 ms) has elapsed, the recomputed
instantaneous load is 0 if the accumulated work is under the ~1 ms noise
threshold (ten times the 100 us loop-overhead threshold), otherwise
100 * work / elapsed clamped to [0,100]; the smoothed load becomes
smoothed*(1-alpha) + instantaneous*alpha with alpha = 0.3, and the work
counter and period start are reset. -/
theorem C4_load_recompute (now_us : Nat) (s : GovState)
    (h : LOAD_PERIOD_MS * 1000 ≤ now_us - s.period_start_us) :
    (updateLoad now_us s).instant_load =
      (if s.total_loop_time_us < 1000 then 0
        else clampLoad
          (100 * (s.total_loop_time_us : ℚ) / ((now_us - s.period_start_us : Nat) : ℚ))) ∧
    0 ≤ (updateLoad now_us s).instant_load ∧
    (updateLoad now_us s).instant_load ≤ 100 ∧
    (updateLoad now_us s).avg_load =
      s.avg_load * (1 - LOAD_SMOOTH) + (updateLoad now_us s).instant_load * LOAD_SMOOTH ∧
    (updateLoad now_us s).total_loop_time_us = 0 ∧
    (updateLoad now_us s).period_start_us = now_us := by
  have hnot : ¬ (now_us - s.period_start_us < LOAD_PERIOD_MS * 1000) := not_lt.mpr h
  have key : updateLoad now_us s =
      { s with
        instant_load := clampLoad (instLoad s.total_loop_time_us (now_us - s.period_start_us))
        avg_load := s.avg_load * (1 - LOAD_SMOOTH) +
          clampLoad (instLoad s.total_loop_time_us (now_us - s.period_start_us)) * LOAD_SMOOTH
        period_start_us := now_us
        total_loop_time_us := 0 } := by
    simp only [updateLoad, if_neg hnot]
  rw [key]
  refine ⟨?_, ?_, ?_, rfl, rfl, rfl⟩
  · show clampLoad (instLoad s.total_loop_time_us (now_us - s.period_start_us)) = _
    rw [instLoad_eq]
    split_ifs with h2
    · simp [clampLoad]
    · congr 1
      ring
  · exact (clampLoad_bounds _).1
  · exact (clampLoad_bounds _).2

theorem C4_witness :
    (updateLoad 200000 sLoadW).instant_load = 75 ∧
    (updateLoad 200000 sLoadW).total_loop_time_us = 0 ∧
    (updateLoad 200000 sLoadW).period_start_us = 200000 := by
  have h := C4_load_recompute 200000 sLoadW (by decide)
  refine ⟨?_, h.2.2.2.2.1, h.2.2.2.2.2⟩
  rw [h.1]
  norm_num [sLoadW, initialState, clampLoad]

/-- C5: when the timing supervisor runs with turbo-active set and at
least TURBO_MAX_MS (10 s) elapsed since the recorded turbo start, it
clears turbo-active and, if the profile is still TURBO, downgrades it to
PERFORMANCE (otherwise it leaves the profile alone). -/
theorem C5_turbo_max_residency (now : Nat) (ok : Bool) (s : GovState)
    (h1 : s.turbo_on = true) (h2 : TURBO_MAX_MS ≤ now - s.turbo_start_ms) :
    (timeouts now ok s).turbo_on = false ∧
      (timeouts now ok s).profile =
        (if s.profile = PROFILE_TURBO then PROFILE_PERFORMANCE else s.profile) := by
  simp only [timeouts]
  rw [if_pos (show _ ∧ _ from ⟨h1, h2⟩)]
  split_ifs <;>
    simp_all [apply_profile, apply_turbo_on_ne, PROFILE_TURBO, PROFILE_PERFORMANCE,
      PROFILE_COUNT]

theorem C5_witness :
    (timeouts 10000 true sHotW).turbo_on = false ∧
      (timeouts 10000 true sHotW).profile =
        (if sHotW.profile = PROFILE_TURBO then PROFILE_PERFORMANCE else sHotW.profile) :=
  C5_turbo_max_residency 10000 true sHotW rfl (by decide)

/-- C6: on a tick that does not close a sampling period, the work added
to the period total is exactly max(elapsed - idle, 0) — nothing on the
first tick — and the idle accumulator is reset to zero. -/
theorem C6_tick_work_accounting (e : Env) (s : GovState)
    (hinit : s.init = true)
    (hperiod : e.now_us - s.period_start_us < LOAD_PERIOD_MS * 1000) :
    (run e s).total_loop_time_us =
      (if s.first_run = true then s.total_loop_time_us
        else s.total_loop_time_us + ((e.now_us - s.last_run_us) - s.total_idle_time_us)) ∧
    (run e s).total_idle_time_us = 0 := by
  simp only [run, hinit]
  rw [if_neg (by decide)]
  have hsmall : updateLoad e.now_us (tickAccount e.now_us s) = tickAccount e.now_us s :=
    updateLoad_of_small _ _ (by rw [tickAccount_period_start]; exact hperiod)
  constructor
  · rw [scaleCycle_total_loop, hsmall, tickAccount_total_loop]
  · rw [scaleCycle_total_idle, hsmall, tickAccount_total_idle]

theorem C6_witness :
    (run { now_us := 51000, now_ms := 51, raw := 500, clk_ok := true, end_us := 51000 }
      (idle 50
        (run { now_us := 1000, now_ms := 1, raw := 500, clk_ok := true, end_us := 1000 }
          (begin .RP2040 false 0 0 initialState)))).total_loop_time_us = 0 ∧
    (run { now_us := 51000, now_ms := 51, raw := 500, clk_ok := true, end_us := 51000 }
      (idle 50
        (run { now_us := 1000, now_ms := 1, raw := 500, clk_ok := true, end_us := 1000 }
          (begin .RP2040 false 0 0 initialState)))).total_idle_time_us = 0 := by
  have h := C6_tick_work_accounting
    { now_us := 51000, now_ms := 51, raw := 500, clk_ok := true, end_us := 51000 }
    (idle 50
      (run { now_us := 1000, now_ms := 1, raw := 500, clk_ok := true, end_us := 1000 }
        (begin .RP2040 false 0 0 initialState)))
    rfl (by decide)
  exact ⟨by rw [h.1]; rfl, h.2⟩

/-- Every public operation keeps both load figures inside [0, 100]. -/
theorem exec_load_bounds (op : Op) (s : GovState)
    (h : 0 ≤ s.instant_load ∧ s.instant_load ≤ 100 ∧ 0 ≤ s.avg_load ∧ s.avg_load ≤ 100) :
    0 ≤ (exec op s).instant_load ∧ (exec op s).instant_load ≤ 100 ∧
      0 ≤ (exec op s).avg_load ∧ (exec op s).avg_load ≤ 100 := by
  obtain ⟨h1, h2, h3, h4⟩ := h
  cases op with
  | runOp e =>
    simp only [exec, run]
    split_ifs with hinit
    · exact ⟨h1, h2, h3, h4⟩
    · have hi := updateLoad_instant_bounds e.now_us (tickAccount e.now_us s)
        (by rw [tickAccount_instant_load]; exact h1)
        (by rw [tickAccount_instant_load]; exact h2)
      have ha := updateLoad_avg_bounds e.now_us (tickAccount e.now_us s)
        (by rw [tickAccount_avg_load]; exact h3)
        (by rw [tickAccount_avg_load]; exact h4)
      refine ⟨?_, ?_, ?_, ?_⟩ <;>
        simp only [scaleCycle_instant_load, scaleCycle_avg_load]
      · exact hi.1
      · exact hi.2
      · exact ha.1
      · exact ha.2
  | idleOp ms => exact ⟨h1, h2, h3, h4⟩
  | idleMicrosOp us => exact ⟨h1, h2, h3, h4⟩
  | inputBoostOp n ok =>
    simp only [exec, inputBoost]
    split_ifs <;> simp_all [apply_instant_load, apply_avg_load]
  | setProfileOp n ok p d =>
    simp only [exec, setProfile]
    split_ifs <;> simp_all [apply_instant_load, apply_avg_load]
  | setTurboOp n ok sec =>
    simp only [exec, setTurbo, setProfile]
    split_ifs <;> simp_all [apply_instant_load, apply_avg_load]
  | setPowersaveOp n ok sec =>
    simp only [exec, setPowersave, setProfile]
    split_ifs <;> simp_all [apply_instant_load, apply_avg_load]
  | setAutoOp => exact ⟨h1, h2, h3, h4⟩

/-- C7: along every sequence of public calls after initialization, the
instantaneous and the smoothed load stay within [0, 100]: the
instantaneous value is clamped, and the smoothed value is a convex
combination of its previous value with the clamped one. -/
theorem C7_loads_within_range (ops : List Op) (chip : PicomimiChip) (m : Bool)
    (nu nm : Nat) :
    0 ≤ (execs ops (begin chip m nu nm initialState)).instant_load ∧
    (execs ops (begin chip m nu nm initialState)).instant_load ≤ 100 ∧
    0 ≤ (execs ops (begin chip m nu nm initialState)).avg_load ∧
    (execs ops (begin chip m nu nm initialState)).avg_load ≤ 100 := by
  have hgen : ∀ (l : List Op) (s : GovState),
      (0 ≤ s.instant_load ∧ s.instant_load ≤ 100 ∧ 0 ≤ s.avg_load ∧ s.avg_load ≤ 100) →
      0 ≤ (execs l s).instant_load ∧ (execs l s).instant_load ≤ 100 ∧
        0 ≤ (execs l s).avg_load ∧ (execs l s).avg_load ≤ 100 := by
    intro l
    induction l with
    | nil => intro s h; exact h
    | cons op l ih => intro s h; exact ih (exec op s) (exec_load_bounds op s h)
  exact hgen ops _
    ⟨le_refl 0, show (0 : ℚ) ≤ 100 by norm_num, le_refl 0, show (0 : ℚ) ≤ 100 by norm_num⟩

/- Characterization of the upward rules of _scale. -/

theorem scaleTarget_lt (s : GovState) (hp : s.profile < PROFILE_COUNT) :
    scaleTarget s < PROFILE_COUNT := by
  simp only [scaleTarget, PROFILE_TURBO, PROFILE_PERFORMANCE, PROFILE_BALANCED,
    PROFILE_POWERSAVE, PROFILE_ULTRA_LOW, PROFILE_COUNT] at *
  split_ifs <;> omega

theorem scale_profile_eq_target (now : Nat) (ok : Bool) (s : GovState)
    (hb : s.boost_on = false) (hp : s.profile < PROFILE_COUNT) :
    (scale now ok s).profile = scaleTarget s := by
  simp only [scale]
  rw [if_neg (by simp [hb])]
  split_ifs with hne
  · exact apply_profile _ _ _ _ (scaleTarget_lt s hp)
  · exact (not_ne_iff.mp hne).symm

theorem scaleTarget_of_turboUp (s : GovState) (hth : s.throttled = false)
    (hp : s.profile < PROFILE_COUNT) (hl : TURBO_UP ≤ s.avg_load) :
    scaleTarget s = PROFILE_TURBO := by
  simp only [scaleTarget, PROFILE_TURBO, PROFILE_PERFORMANCE, PROFILE_BALANCED,
    PROFILE_POWERSAVE, PROFILE_ULTRA_LOW, PROFILE_COUNT,
    TURBO_UP, TURBO_DOWN, PERF_UP, PERF_DOWN, BAL_UP, BAL_DOWN, SAVE_DOWN] at *
  split_ifs <;> simp_all <;> first | omega | linarith

theorem scaleTarget_of_perfUp (s : GovState) (hth : s.throttled = false)
    (hl1 : PERF_UP ≤ s.avg_load) (hl2 : s.avg_load < TURBO_UP)
    (hp : s.profile ≤ PROFILE_PERFORMANCE) :
    scaleTarget s = PROFILE_PERFORMANCE := by
  simp only [scaleTarget, PROFILE_TURBO, PROFILE_PERFORMANCE, PROFILE_BALANCED,
    PROFILE_POWERSAVE, PROFILE_ULTRA_LOW, PROFILE_COUNT,
    TURBO_UP, TURBO_DOWN, PERF_UP, PERF_DOWN, BAL_UP, BAL_DOWN, SAVE_DOWN] at *
  split_ifs <;> simp_all <;> first | omega | linarith

theorem scaleTarget_of_balUp (s : GovState) (hth : s.throttled = false)
    (hl1 : BAL_UP ≤ s.avg_load) (hl2 : s.avg_load < PERF_UP)
    (hp : s.profile ≤ PROFILE_BALANCED) :
    scaleTarget s = PROFILE_BALANCED := by
  simp only [scaleTarget, PROFILE_TURBO, PROFILE_PERFORMANCE, PROFILE_BALANCED,
    PROFILE_POWERSAVE, PROFILE_ULTRA_LOW, PROFILE_COUNT,
    TURBO_UP, TURBO_DOWN, PERF_UP, PERF_DOWN, BAL_UP, BAL_DOWN, SAVE_DOWN] at *
  split_ifs <;> simp_all <;> first | omega | linarith

/-- C8 counterexample: from ULTRA_LOW with smoothed load 80 and no
throttle, one scale evaluation jumps straight to TURBO — four ordinal
steps, refuting "the target chosen by the upward rules is at most
current profile + 1". -/
theorem C8_counterexample :
    sJumpW.profile = PROFILE_ULTRA_LOW ∧
    sJumpW.throttled = false ∧
    (scale 0 true sJumpW).profile = PROFILE_TURBO ∧
    ¬ ((scale 0 true sJumpW).profile ≤ sJumpW.profile + 1) := by
  have hp : (scale 0 true sJumpW).profile = PROFILE_TURBO := by
    rw [scale_profile_eq_target 0 true sJumpW rfl (by decide)]
    exact scaleTarget_of_turboUp sJumpW rfl (by decide)
      (by norm_num [sJumpW, initialState, TURBO_UP])
  refine ⟨rfl, rfl, hp, ?_⟩
  rw [hp]
  decide

/-- C8 amended: the upward evaluation, checked highest-target first,
selects the highest profile whose up-threshold the smoothed load meets
(TURBO at load ≥ 70 from any profile, PERFORMANCE for load in [45, 70)
from any profile at or below it, BALANCED for load in [20, 45) from any
profile at or below it); the profile ordinal can therefore increase by
more than one step in a single cycle. -/
theorem C8_upward_rules_highest_first (now : Nat) (ok : Bool) (s : GovState)
    (hth : s.throttled = false) (hb : s.boost_on = false)
    (hp : s.profile < PROFILE_COUNT) :
    (TURBO_UP ≤ s.avg_load → (scale now ok s).profile = PROFILE_TURBO) ∧
    (PERF_UP ≤ s.avg_load → s.avg_load < TURBO_UP → s.profile ≤ PROFILE_PERFORMANCE →
      (scale now ok s).profile = PROFILE_PERFORMANCE) ∧
    (BAL_UP ≤ s.avg_load → s.avg_load < PERF_UP → s.profile ≤ PROFILE_BALANCED →
      (scale now ok s).profile = PROFILE_BALANCED) := by
  rw [scale_profile_eq_target now ok s hb hp]
  exact ⟨fun hl => scaleTarget_of_turboUp s hth hp hl,
    fun hl1 hl2 hple => scaleTarget_of_perfUp s hth hl1 hl2 hple,
    fun hl1 hl2 hple => scaleTarget_of_balUp s hth hl1 hl2 hple⟩

theorem C8_witness :
    (scale 0 true sPerfW).profile = PROFILE_PERFORMANCE :=
  (C8_upward_rules_highest_first 0 true sPerfW rfl rfl (by decide)).2.1
    (by norm_num [sPerfW, initialState, PERF_UP])
    (by norm_num [sPerfW, initialState, TURBO_UP])
    (by decide)

/-- C9: with no override, no boost and no throttle, while the smoothed
load sits inside the hysteresis band of the current profile
(down-threshold ≤ load < up-threshold, e.g. 12 ≤ 15 < 20 at BALANCED),
the scale step is a no-op: the whole state is unchanged. -/
theorem C9_hysteresis_band_noop (now : Nat) (ok : Bool) (s : GovState)
    (hov : s.override_on = false) (hb : s.boost_on = false) (hth : s.throttled = false)
    (hlo : downTh s.profile ≤ s.avg_load) (hhi : s.avg_load < upTh s.profile) :
    scale now ok s = s := by
  have ht : scaleTarget s = s.profile := by
    rcases h5 : s.profile with _ | _ | _ | _ | _ | k <;>
      rw [h5] at hlo hhi <;>
      norm_num [downTh, upTh, TURBO_UP, TURBO_DOWN, PERF_UP, PERF_DOWN, BAL_UP, BAL_DOWN,
        SAVE_DOWN, ULTRA_DOWN] at hlo hhi <;>
      simp only [scaleTarget, h5, hth, PROFILE_TURBO, PROFILE_PERFORMANCE, PROFILE_BALANCED,
        PROFILE_POWERSAVE, PROFILE_ULTRA_LOW,
        TURBO_UP, TURBO_DOWN, PERF_UP, PERF_DOWN, BAL_UP, BAL_DOWN, SAVE_DOWN] <;>
      norm_num <;>
      first
      | linarith
      | (split_ifs <;> first | rfl | omega | linarith | (exfalso; linarith))
  simp only [scale]
  rw [if_neg (by simp [hb]), if_neg (by simp [ht])]

theorem C9_witness : scale 0 true sBalW = sBalW :=
  C9_hysteresis_band_noop 0 true sBalW rfl rfl rfl
    (by norm_num [downTh, sBalW, initialState, BAL_DOWN, PROFILE_BALANCED])
    (by norm_num [upTh, sBalW, initialState, BAL_UP, PROFILE_BALANCED])

/-- C10: after initialization, along any sequence of public operations,
whenever the turbo-active flag is set the profile is TURBO (the flag is
set only when TURBO is applied, cleared by applying any other profile and
by the supervisor's expiry path); and applying TURBO while the flag is
already set does not restart the turbo residency timer. -/
theorem C10_turbo_flag_matches_profile :
    (∀ (ops : List Op) (chip : PicomimiChip) (m : Bool) (nu nm : Nat),
      (execs ops (begin chip m nu nm initialState)).turbo_on = true →
      (execs ops (begin chip m nu nm initialState)).profile = PROFILE_TURBO) ∧
    (∀ (now : Nat) (ok : Bool) (s : GovState), s.turbo_on = true →
      (apply now ok PROFILE_TURBO s).turbo_start_ms = s.turbo_start_ms) := by
  constructor
  · intro ops chip m nu nm
    have hgen : ∀ (l : List Op) (s : GovState),
        (s.turbo_on = true → s.profile = PROFILE_TURBO) →
        (execs l s).turbo_on = true → (execs l s).profile = PROFILE_TURBO := by
      intro l
      induction l with
      | nil => intro s h; exact h
      | cons op l ih => intro s h; exact ih (exec op s) (exec_turbo_inv op s h)
    refine hgen ops _ (fun hh => ?_)
    rw [show (begin chip m nu nm initialState).turbo_on = false from rfl] at hh
    exact Bool.noConfusion hh
  · intro now ok s h
    exact apply_turbo_start_of_turbo_on now ok s h

theorem C10_witness :
    (execs [Op.setTurboOp 0 true 0]
        (begin .RP2040 false 0 0 initialState)).profile = PROFILE_TURBO ∧
    (apply 7 true PROFILE_TURBO sHotW).turbo_start_ms = sHotW.turbo_start_ms :=
  ⟨C10_turbo_flag_matches_profile.1 [Op.setTurboOp 0 true 0] .RP2040 false 0 0 rfl,
    C10_turbo_flag_matches_profile.2 7 true sHotW rfl⟩

end Picomimi
